import Mathlib

/-
Verification development for the SafeCircle backend (src/server/index.js).

The server is shallowly embedded: each JavaScript function of the core
(fallbackRisk, isPlaceholderKey, the POST /api/risk-assess handler with its
sendResult helper, the POST /api/tts handler, getClientIp and
rateLimitMiddleware) becomes a pure Lean definition.  JavaScript values that
flow through these functions are modelled by the inductive JSVal; JSON numbers
are rationals (every JSON literal is finite).  Platform primitives that are not
part of the repository (JSON.parse, the Gemini SDK call, fetch) are passed in
as explicit parameters or outcome values, so each theorem quantifies over
every possible behaviour of those primitives.
-/

namespace SafeCircle

/-- JavaScript values as observed by the server code paths under study.
Numbers carry a rational: JSON.parse only ever produces finite numbers, and
the one place a non-finite number can appear (Number(parsed.riskScore)) is
modelled separately by an Option in ParsedVal. -/
inductive JSVal where
  | null
  | undefined
  | bool (b : Bool)
  | num (q : ℚ)
  | str (s : String)
deriving DecidableEq, Repr

/-- Truthiness of a JSVal, as JavaScript coerces it in a condition. -/
def jsTruthy : JSVal → Bool
  | .null => false
  | .undefined => false
  | .bool b => b
  | .num q => decide (q ≠ 0)
  | .str s => decide (s ≠ "")

/-- The JavaScript expression a || b restricted to the second operand being
returned when a is falsy. -/
def jsOr (a b : JSVal) : JSVal :=
  if jsTruthy a then a else b

/-- JavaScript strict equality on the modelled values.  On this value
universe (no NaN: see JSVal) strict equality coincides with equality. -/
def jsStrictEq (a b : JSVal) : Bool :=
  decide (a = b)

/-- Template-literal rendering of a JSVal, as in a JS template string.
Rational rendering approximates JS number printing; the claims never inspect
a rendered number. -/
def jsShow : JSVal → String
  | .null => "null"
  | .undefined => "undefined"
  | .bool true => "true"
  | .bool false => "false"
  | .num q => toString q
  | .str s => s

/-- The request body of POST /api/risk-assess: the five recognised keys, each
either absent (none) or present with an arbitrary JS value.  Extra keys are
never read by the handler and are not modelled. -/
structure Body where
  scenarioId : Option JSVal
  timeOfDay : Option JSVal
  userAlone : Option JSVal
  neighborhoodType : Option JSVal
  routeLighting : Option JSVal
deriving DecidableEq, Repr

/-- Property access body.k in JS: undefined when the key is absent. -/
def bodyGet (f : Option JSVal) : JSVal :=
  f.getD .undefined

/-- The required array in the handler, in source order. -/
def requiredFields : List String :=
  ["scenarioId", "timeOfDay", "userAlone", "neighborhoodType", "routeLighting"]

/-- The JS test (field in body) for each required field name. -/
def hasField (b : Body) : String → Bool
  | "scenarioId" => b.scenarioId.isSome
  | "timeOfDay" => b.timeOfDay.isSome
  | "userAlone" => b.userAlone.isSome
  | "neighborhoodType" => b.neighborhoodType.isSome
  | "routeLighting" => b.routeLighting.isSome
  | _ => false

/-- The validation loop of the handler: the first required field not present
in the body, none when all five are present. -/
def firstMissing (b : Body) : Option String :=
  requiredFields.find? (fun f => !hasField b f)

/-- The clamp helper of index.js (used on the integer fallback score). -/
def clamp (v lo hi : ℤ) : ℤ :=
  if v < lo then lo else if v > hi then hi else v

/-- The object literal returned by fallbackRisk. -/
structure FallbackResult where
  riskScore : ℤ
  riskLevel : String
  reasoning : String
  guardianMessage : String
  saferAction : String
deriving DecidableEq, Repr

/-- The fallbackRisk function of index.js.  The argument is optional because
every score line first tests the truthiness of input itself (input &&): a
falsy input contributes no score. -/
def fallbackRisk (input : Option Body) : FallbackResult :=
  let fld : (Body → Option JSVal) → JSVal := fun f =>
    match input with
    | none => .undefined
    | some b => bodyGet (f b)
  let inTruthy : Bool := input.isSome
  let score : ℤ := 0
  let score := if inTruthy && jsStrictEq (fld Body.timeOfDay) (.str "night") then score + 25 else score
  let score := if inTruthy && jsStrictEq (fld Body.userAlone) (.bool true) then score + 25 else score
  let score := if inTruthy && jsStrictEq (fld Body.neighborhoodType) (.str "industrial") then score + 20 else score
  let score := if inTruthy && jsStrictEq (fld Body.neighborhoodType) (.str "downtown") then score + 10 else score
  let score := if inTruthy && jsStrictEq (fld Body.routeLighting) (.str "poor") then score + 20 else score
  let score := if inTruthy && jsStrictEq (fld Body.routeLighting) (.str "mixed") then score + 10 else score
  let score := clamp score 0 100
  let riskLevel := if score ≥ 70 then "HIGH" else if score ≥ 40 then "MEDIUM" else "LOW"
  let reasoning :=
    "Score computed from inputs: timeOfDay=" ++ jsShow (fld Body.timeOfDay)
      ++ ", userAlone=" ++ jsShow (fld Body.userAlone)
      ++ ", neighborhoodType=" ++ jsShow (fld Body.neighborhoodType)
      ++ ", routeLighting=" ++ jsShow (fld Body.routeLighting)
  let guardianMessage :=
    if riskLevel = "HIGH" then
      "High risk detected. Stay alert and consider contacting someone you trust."
    else if riskLevel = "MEDIUM" then
      "Moderate risk detected. Stay aware of your surroundings."
    else
      "Low risk detected. Exercise normal caution."
  let saferAction :=
    if riskLevel = "HIGH" then
      "Avoid the route if possible, choose a well-lit path, or ask someone to accompany you."
    else if riskLevel = "MEDIUM" then
      "Prefer well-lit routes and stay in populated areas."
    else
      "Proceed but remain aware of surroundings."
  { riskScore := score
    riskLevel := riskLevel
    reasoning := reasoning
    guardianMessage := guardianMessage
    saferAction := saferAction }

/-- Decides whether the first list is an initial segment of the second. -/
def leadsList : List Char → List Char → Bool
  | [], _ => true
  | _ :: _, [] => false
  | a :: as, b :: bs => a == b && leadsList as bs

/-- Decides whether the first list occurs as a contiguous run of the
second. -/
def containsRun (sub : List Char) : List Char → Bool
  | [] => leadsList sub []
  | c :: rest => leadsList sub (c :: rest) || containsRun sub rest

/-- Character-wise lower-casing, the model of String.toLowerCase (the
substrings tested below are ASCII, where the two coincide). -/
def lowerChars (s : String) : List Char :=
  s.toList.map Char.toLower

/-- The alternatives of the regex your|placeholder|change|replace|xxxx|example
in isPlaceholderKey. -/
def placeholderSubstrings : List String :=
  ["your", "placeholder", "change", "replace", "xxxx", "example"]

/-- The isPlaceholderKey helper of the risk-assess handler.  The argument is
the environment variable GEMINI_API_KEY: none when unset, otherwise its
string value.  A missing or empty value is falsy in JS, hence treated as a
placeholder. -/
def isPlaceholderKey (k : Option String) : Bool :=
  match k with
  | none => true
  | some s =>
    if s = "" then true
    else placeholderSubstrings.any (fun sub => containsRun sub.toList (lowerChars s))

/-- The in-memory MEMORY record mirrored to memory.json. -/
structure Memory where
  hasMemory : Bool
  lastLowScenarioId : JSVal
  lastSaferAction : JSVal
deriving DecidableEq, Repr

/-- The initial MEMORY value before loadMemory finds a file. -/
def initialMemory : Memory :=
  { hasMemory := false, lastLowScenarioId := .null, lastSaferAction := .null }

/-- The GET /api/memory-echo handler: it serialises the current MEMORY. -/
def memoryEchoHandler (m : Memory) : Memory := m

/-- The object the handler passes to sendResult: either the fallbackRisk
result or the parsed provider object after its riskScore was clamped. -/
structure RObj where
  riskScore : ℚ
  riskLevel : JSVal
  reasoning : JSVal
  guardianMessage : JSVal
  saferAction : JSVal
deriving DecidableEq, Repr

/-- Coercion of a fallbackRisk result into the sendResult object shape (the
JS object holds plain strings in those fields). -/
def toRObj (r : FallbackResult) : RObj :=
  { riskScore := (r.riskScore : ℚ)
    riskLevel := .str r.riskLevel
    reasoning := .str r.reasoning
    guardianMessage := .str r.guardianMessage
    saferAction := .str r.saferAction }

/-- The response of the POST /api/risk-assess handler: either
res.status(status).json with an error code, or res.json of the result object
spread together with the model tag (status 200). -/
inductive RiskResponse where
  | error (status : ℕ) (code : String)
  | result (status : ℕ) (obj : RObj) (model : String)
deriving DecidableEq, Repr

/-- The sendResult helper: when the riskLevel of the object is strictly equal to
the string LOW, MEMORY is mutated (with falsy scenarioId or saferAction
coerced to null by the or-null expressions) and saveMemory is attempted.
saveMemory catches its own write errors, so a failing persist (the
persistFails flag) alters neither MEMORY nor the response. -/
def sendResult (body : Body) (mem : Memory) (persistFails : Bool)
    (obj : RObj) (model : String) : RiskResponse × Memory :=
  let mem' :=
    if jsStrictEq obj.riskLevel (.str "LOW") then
      { hasMemory := true
        lastLowScenarioId := jsOr (bodyGet body.scenarioId) .null
        lastSaferAction := jsOr obj.saferAction .null }
    else mem
  (.result 200 obj model, mem')

/-- The view the handler takes of a successfully parsed JSON value: its
truthiness, the result of Number(value.riskScore) (none when that number is
not finite, e.g. NaN from a missing or non-numeric field), and the four
fields that are passed through untouched. -/
structure ParsedVal where
  truthy : Bool
  riskScoreNum : Option ℚ
  riskLevel : JSVal
  reasoning : JSVal
  guardianMessage : JSVal
  saferAction : JSVal
deriving DecidableEq, Repr

/-- The opening-brace character. -/
def lbrace : Char := Char.ofNat 123

/-- The closing-brace character. -/
def rbrace : Char := Char.ofNat 125

/-- String.prototype.indexOf for a single character, as a position when one
exists (the JS -1 sentinel becomes none). -/
def jsIndexOf (cs : List Char) (c : Char) : Option ℕ :=
  cs.findIdx? (fun x => x == c)

/-- String.prototype.lastIndexOf for a single character. -/
def jsLastIndexOf (cs : List Char) (c : Char) : Option ℕ :=
  match jsIndexOf cs.reverse c with
  | none => none
  | some i => some (cs.length - 1 - i)

/-- The robust-parsing block of the handler: JSON.parse of the whole text,
and on a parse exception the substring from the first opening brace to the
last closing brace, provided the latter is further right.  The platform
primitive JSON.parse is the parse parameter; it returns none when it throws.
A successful parse of a falsy JSON value (such as null) is a some whose
truthy field is false, and is not retried, exactly as in the source. -/
def tryParse (parse : String → Option ParsedVal) (text : String) : Option ParsedVal :=
  match parse text with
  | some p => some p
  | none =>
    let cs := text.toList
    match jsIndexOf cs lbrace, jsLastIndexOf cs rbrace with
    | some first, some last =>
      if first < last then parse (String.mk ((cs.drop first).take (last + 1 - first)))
      else none
    | _, _ => none

/-- Outcome of the Gemini SDK invocation block: either the SDK threw (require
failure, network, timeout), or it produced the trimmed text response. -/
inductive ProviderOutcome where
  | sdkError (msg : String)
  | text (t : String)

/-- Math.max(0, Math.min(100, q)), the clamp applied to the provider
score. -/
def jsClamp (q : ℚ) : ℚ :=
  max 0 (min 100 q)

/-- The POST /api/risk-assess handler after rate-governor admission.
Parameters model the platform: parse is JSON.parse, key the GEMINI_API_KEY
environment value, outcome the provider invocation result (consulted only
when a real key is configured), persistFails whether the memory-file write
would fail.  Returns the HTTP response and the MEMORY value after the
request. -/
def riskAssess (parse : String → Option ParsedVal) (key : Option String)
    (outcome : ProviderOutcome) (persistFails : Bool)
    (mem : Memory) (body : Body) : RiskResponse × Memory :=
  match firstMissing body with
  | some f => (.error 400 ("missing_" ++ f), mem)
  | none =>
    if isPlaceholderKey key then
      sendResult body mem persistFails (toRObj (fallbackRisk (some body))) "fallback"
    else
      match outcome with
      | .sdkError _ =>
        sendResult body mem persistFails (toRObj (fallbackRisk (some body))) "fallback"
      | .text t =>
        match tryParse parse t with
        | none =>
          sendResult body mem persistFails (toRObj (fallbackRisk (some body))) "fallback"
        | some p =>
          if !p.truthy || p.riskScoreNum.isNone then
            sendResult body mem persistFails (toRObj (fallbackRisk (some body))) "fallback"
          else
            sendResult body mem persistFails
              { riskScore := jsClamp (p.riskScoreNum.getD 0)
                riskLevel := p.riskLevel
                reasoning := p.reasoning
                guardianMessage := p.guardianMessage
                saferAction := p.saferAction } "gemini"

/-- The isPlaceholder helper declared inside the POST /api/tts handler; its
body is identical to isPlaceholderKey. -/
def isPlaceholder (k : Option String) : Bool :=
  match k with
  | none => true
  | some s =>
    if s = "" then true
    else placeholderSubstrings.any (fun sub => containsRun sub.toList (lowerChars s))

/-- Outcome of the fetch to the speech provider: a success response with
audio bytes, a non-success HTTP response carrying the provider error body
text, or a thrown network error. -/
inductive FetchOutcome where
  | success (audio : List ℕ)
  | httpError (bodyText : String)
  | netError (msg : String)

/-- The JSON object the TTS handler returns when the provider fails. -/
structure TtsFallbackBody where
  ok : Bool
  fallback : Bool
  provider : String
  text : String
  reason : String
deriving DecidableEq, Repr

/-- The response of the POST /api/tts handler: an error status with a code,
the audio/mpeg bytes, or the status-200 fallback JSON. -/
inductive TtsResponse where
  | error (status : ℕ) (code : String)
  | audio (bytes : List ℕ)
  | json200 (body : TtsFallbackBody)
deriving DecidableEq, Repr

/-- The POST /api/tts handler.  classifyPayment models JSON.parse of the
provider error body together with the payment_required / paid_plan_required
field test; both branches of that test return the same literal in the
source.  apiKey and voiceId are the ELEVENLABS environment values; text is
the text field of the request body (undefined when absent). -/
def ttsHandler (classifyPayment : String → Bool)
    (apiKey voiceId : Option String) (text : JSVal)
    (outcome : FetchOutcome) : TtsResponse :=
  match text with
  | .str s =>
    if s.length > 400 then .error 400 "text_too_long"
    else if isPlaceholder apiKey || isPlaceholder voiceId then
      .error 500 "elevenlabs_not_configured"
    else
      match outcome with
      | .success audio => .audio audio
      | .httpError bodyText =>
        if classifyPayment bodyText then
          .json200 { ok := false, fallback := true, provider := "browser_tts"
                     text := s, reason := "elevenlabs_unavailable" }
        else
          .json200 { ok := false, fallback := true, provider := "browser_tts"
                     text := s, reason := "elevenlabs_unavailable" }
      | .netError _ =>
        .json200 { ok := false, fallback := true, provider := "browser_tts"
                   text := s, reason := "elevenlabs_unavailable" }
  | _ => .error 400 "missing_text"

/-- A value of the x-forwarded-for request header as Node delivers it:
absent, a string, or an array of strings (repeated header). -/
inductive HeaderVal where
  | missing
  | str (s : String)
  | strs (l : List String)
deriving DecidableEq, Repr

/-- Truthiness of a header value (an array is always truthy). -/
def headerTruthy : HeaderVal → Bool
  | .missing => false
  | .str s => decide (s ≠ "")
  | .strs _ => true

/-- The getClientIp helper.  When the forwarded header is truthy the code
calls .split on it; on a non-string value that property access throws a
TypeError, modelled as the error case.  Otherwise req.ip is returned, which
may itself be undefined (none). -/
def getClientIp (forwarded : HeaderVal) (reqIp : Option String) :
    Except Unit (Option String) :=
  if headerTruthy forwarded then
    match forwarded with
    | .str s => .ok (some (((s.splitOn ",").headD "").trim))
    | _ => .error ()
  else .ok reqIp

/-- An entry of the rateLimitStore map. -/
structure Entry where
  count : ℕ
  start : ℤ
deriving DecidableEq, Repr

/-- RATE_LIMIT_WINDOW_MS: 60 seconds. -/
def RATE_LIMIT_WINDOW_MS : ℤ := 60000

/-- RATE_LIMIT_MAX: requests per window. -/
def RATE_LIMIT_MAX : ℕ := 30

/-- The rateLimitStore map, as a function from client keys to entries. -/
def Store := String → Option Entry

/-- rateLimitStore.set. -/
def setStore (st : Store) (ip : String) (e : Entry) : Store :=
  fun k => if k = ip then some e else st k

/-- The decision the middleware takes: call next() (admit the request to the
handler) or answer 429 rate_limited. -/
inductive Decision where
  | next
  | limited
deriving DecidableEq, Repr

/-- The body of rateLimitMiddleware once the client key is resolved:
timestamps are epoch milliseconds. -/
def rateLimitCheck (st : Store) (ip : String) (now : ℤ) : Decision × Store :=
  match st ip with
  | none => (.next, setStore st ip { count := 1, start := now })
  | some entry =>
    if now - entry.start > RATE_LIMIT_WINDOW_MS then
      (.next, setStore st ip { count := 1, start := now })
    else
      let e : Entry := { count := entry.count + 1, start := entry.start }
      if e.count > RATE_LIMIT_MAX then (.limited, setStore st ip e)
      else (.next, setStore st ip e)

/-- The rateLimitMiddleware function.  The whole body sits in a try/catch
whose catch calls next(); the only step that can throw is the client-key
derivation (.split on a non-string header), after which no state has been
touched.  A falsy derived key (undefined req.ip or empty string) falls back
to the shared bucket unknown. -/
def rateLimitMiddleware (forwarded : HeaderVal) (reqIp : Option String)
    (now : ℤ) (st : Store) : Decision × Store :=
  match getClientIp forwarded reqIp with
  | .error _ => (.next, st)
  | .ok ipOpt =>
    let ip :=
      match ipOpt with
      | none => "unknown"
      | some s => if s = "" then "unknown" else s
    rateLimitCheck st ip now

/-- Runs a sequence of requests (header value, req.ip, timestamp) through
the middleware, collecting the decisions and threading the store. -/
def runSeq (st : Store) : List (HeaderVal × Option String × ℤ) → List Decision × Store
  | [] => ([], st)
  | r :: rs =>
    let out := rateLimitMiddleware r.1 r.2.1 r.2.2 st
    let rest := runSeq out.2 rs
    (out.1 :: rest.1, rest.2)

/-- Score of the claimed fallback algorithm, written exactly as the claim
words it: 25 for night, 25 for alone, 20 for industrial else 10 for
downtown, 20 for poor else 10 for mixed. -/
def specScore (b : Body) : ℤ :=
  (if bodyGet b.timeOfDay = .str "night" then (25 : ℤ) else 0)
    + (if bodyGet b.userAlone = .bool true then 25 else 0)
    + (if bodyGet b.neighborhoodType = .str "industrial" then 20
       else if bodyGet b.neighborhoodType = .str "downtown" then 10 else 0)
    + (if bodyGet b.routeLighting = .str "poor" then 20
       else if bodyGet b.routeLighting = .str "mixed" then 10 else 0)

/-- Clamping to the interval claimed, written as min and max. -/
def specClamp (q : ℤ) : ℤ :=
  min 100 (max 0 q)

/-- Risk level per the claimed thresholds: HIGH iff at least 70, MEDIUM iff
at least 40 and below 70, LOW otherwise. -/
def specLevel (s : ℤ) : String :=
  if 70 ≤ s then "HIGH" else if 40 ≤ s ∧ s < 70 then "MEDIUM" else "LOW"

/-- The preset-style input of the claimed example: night, alone, industrial,
poor lighting. -/
def nightBody : Body :=
  { scenarioId := some (.str "s2")
    timeOfDay := some (.str "night")
    userAlone := some (.bool true)
    neighborhoodType := some (.str "industrial")
    routeLighting := some (.str "poor") }

/-- Closed form of the fallbackRisk score on a present body: the clamp of the
six guarded additions. -/
theorem fallbackRisk_score_eq (b : Body) :
    (fallbackRisk (some b)).riskScore =
      clamp ((if bodyGet b.timeOfDay = .str "night" then (25 : ℤ) else 0)
        + (if bodyGet b.userAlone = .bool true then 25 else 0)
        + (if bodyGet b.neighborhoodType = .str "industrial" then 20 else 0)
        + (if bodyGet b.neighborhoodType = .str "downtown" then 10 else 0)
        + (if bodyGet b.routeLighting = .str "poor" then 20 else 0)
        + (if bodyGet b.routeLighting = .str "mixed" then 10 else 0)) 0 100 := by
  simp only [fallbackRisk, jsStrictEq, Option.isSome_some, Bool.true_and,
    decide_eq_true_eq]
  split_ifs <;> norm_num

/-- Closed form of the fallbackRisk level on a present body: the threshold
chain applied to the returned score. -/
theorem fallbackRisk_level_eq (b : Body) :
    (fallbackRisk (some b)).riskLevel =
      (if (fallbackRisk (some b)).riskScore ≥ 70 then "HIGH"
       else if (fallbackRisk (some b)).riskScore ≥ 40 then "MEDIUM" else "LOW") := by
  simp only [fallbackRisk, jsStrictEq, Option.isSome_some, Bool.true_and,
    decide_eq_true_eq]

/-- A neighbourhood value cannot equal both tested literals, so the two
independent additions of the source coincide with the else chain of the
claim. -/
theorem specScore_eq_adds (b : Body) :
    specScore b =
      (if bodyGet b.timeOfDay = .str "night" then (25 : ℤ) else 0)
        + (if bodyGet b.userAlone = .bool true then 25 else 0)
        + (if bodyGet b.neighborhoodType = .str "industrial" then 20 else 0)
        + (if bodyGet b.neighborhoodType = .str "downtown" then 10 else 0)
        + (if bodyGet b.routeLighting = .str "poor" then 20 else 0)
        + (if bodyGet b.routeLighting = .str "mixed" then 10 else 0) := by
  unfold specScore
  split_ifs <;> simp_all

/-- Clamp as written in the source equals the min-max clamp of the claim. -/
theorem clamp_eq_specClamp (q : ℤ) : clamp q 0 100 = specClamp q := by
  unfold clamp specClamp
  split_ifs with h1 h2
  · rw [max_eq_left h1.le]; norm_num
  · rw [max_eq_right (not_lt.mp h1), min_eq_left h2.le]
  · rw [max_eq_right (not_lt.mp h1), min_eq_right (not_lt.mp h2)]

/-- The threshold chain of the source equals the iff-worded levels of the
claim. -/
theorem specLevel_eq_chain (q : ℤ) :
    (if q ≥ 70 then "HIGH" else if q ≥ 40 then "MEDIUM" else "LOW") = specLevel q := by
  rcases le_or_lt 70 q with h70 | h70
  · simp [specLevel, h70]
  · rcases le_or_lt 40 q with h40 | h40
    · simp [specLevel, h40, h70, not_le.mpr h70]
    · have h70x : ¬(70 : ℤ) ≤ q := not_le.mpr (h40.trans (by norm_num))
      simp [specLevel, h70x, not_le.mpr h40]

/-- C1: fallbackRisk is a pure, deterministic function (it is embedded as a
total Lean function of its input alone): on every input the returned
riskScore is the claimed weighted sum (25 for night, 25 for alone, 20 for
industrial else 10 for downtown, 20 for poor else 10 for mixed) clamped to
the interval from 0 to 100, the returned riskLevel is HIGH iff the score is
at least 70, MEDIUM iff it is at least 40 and below 70, and LOW otherwise;
and on the night-alone-industrial-poor example the result is score 90 with
level HIGH. -/
theorem c1_fallbackRisk_algorithm (b : Body) :
    (fallbackRisk (some b)).riskScore = specClamp (specScore b)
    ∧ (fallbackRisk (some b)).riskLevel = specLevel (specClamp (specScore b))
    ∧ (fallbackRisk (some nightBody)).riskScore = 90
    ∧ (fallbackRisk (some nightBody)).riskLevel = "HIGH" := by
  have hscore : (fallbackRisk (some b)).riskScore = specClamp (specScore b) := by
    rw [fallbackRisk_score_eq, specScore_eq_adds, clamp_eq_specClamp]
  have h90 : (fallbackRisk (some nightBody)).riskScore = 90 := by
    rw [fallbackRisk_score_eq]
    norm_num [nightBody, bodyGet, clamp, show ("industrial" : String) ≠ "downtown" by decide, show ("poor" : String) ≠ "mixed" by decide]
  have hlevel : (fallbackRisk (some b)).riskLevel = specLevel (specClamp (specScore b)) := by
    rw [fallbackRisk_level_eq, hscore, specLevel_eq_chain]
  have hhigh : (fallbackRisk (some nightBody)).riskLevel = "HIGH" := by
    rw [fallbackRisk_level_eq, h90]
    norm_num
  exact ⟨hscore, hlevel, h90, hhigh⟩

/-- The Rate Governor step as the claim words it: admit when no entry exists
or when now minus windowStart exceeds 60 seconds (resetting to count 1),
otherwise increment the count and admit iff the incremented count is at most
30. -/
def specGovernor (st : Store) (ip : String) (now : ℤ) : Bool × Store :=
  match st ip with
  | none => (true, setStore st ip { count := 1, start := now })
  | some e =>
    if now - e.start > 60000 then (true, setStore st ip { count := 1, start := now })
    else (decide (e.count + 1 ≤ 30), setStore st ip { count := e.count + 1, start := e.start })

/-- A burst of 31 requests from the same client at the same instant. -/
def burst31 : List (HeaderVal × Option String × ℤ) :=
  List.replicate 31 (HeaderVal.missing, some "9.9.9.9", (0 : ℤ))

/-- C5: for every client key the middleware body decides exactly as the
claimed per-key state machine (admit on no entry or an expired window with a
reset to count 1, otherwise increment and admit iff the new count is at most
30); consequently the 31st request of a same-instant burst is the first one
denied, and a request arriving after more than 60 seconds of silence is
admitted again. -/
theorem c5_rate_governor (st : Store) (ip : String) (now : ℤ) :
    rateLimitCheck st ip now =
      ((if (specGovernor st ip now).1 then Decision.next else Decision.limited),
        (specGovernor st ip now).2)
    ∧ (runSeq (fun _ => none) burst31).1
        = List.replicate 30 Decision.next ++ [Decision.limited]
    ∧ (rateLimitMiddleware HeaderVal.missing (some "9.9.9.9") 60001
        (runSeq (fun _ => none) burst31).2).1 = Decision.next := by
  refine ⟨?_, by decide, by decide⟩
  unfold rateLimitCheck specGovernor RATE_LIMIT_WINDOW_MS RATE_LIMIT_MAX
  cases h : st ip with
  | none => rfl
  | some e =>
    by_cases hw : now - e.start > 60000
    · simp [hw]
    · by_cases hc : e.count + 1 ≤ 30
      · simp [hw, hc, not_lt.mpr hc]
      · simp [hw, hc, not_le.mp hc]

/-- C10: the whole middleware body is inside a try whose catch calls next,
and the only throwing step (client-key derivation, via .split on a
non-string forwarded header) runs before any state is touched: whenever key
derivation throws, the request is admitted and the window table is left
unchanged, so a governor-internal error never becomes a 429 or 500. -/
theorem c10_governor_fails_open (forwarded : HeaderVal) (reqIp : Option String)
    (now : ℤ) (st : Store) (h : getClientIp forwarded reqIp = .error ()) :
    rateLimitMiddleware forwarded reqIp now st = (.next, st) := by
  unfold rateLimitMiddleware
  rw [h]

/-- Witness for C10: an array-valued forwarded header (a repeated header in
Node) is truthy but has no split method, so derivation throws; the request
at that point is admitted with the store untouched. -/
theorem c10_witness :
    getClientIp (HeaderVal.strs ["10.0.0.1"]) none = .error ()
    ∧ rateLimitMiddleware (HeaderVal.strs ["10.0.0.1"]) none 12345 (fun _ => none)
        = (.next, fun _ => none) :=
  ⟨rfl, c10_governor_fails_open (HeaderVal.strs ["10.0.0.1"]) none 12345 (fun _ => none) rfl⟩

/-- Absent-or-placeholder classification as the claim words it: null/empty,
or the lower-cased value contains one of the six template substrings. -/
def specPlaceholder (k : Option String) : Prop :=
  k = none ∨ k = some "" ∨
    ∃ s, k = some s ∧ ∃ sub ∈ placeholderSubstrings, containsRun sub.toList (lowerChars s) = true

/-- A parse function for witnesses: a JSON.parse that always throws. -/
def parse0 : String → Option ParsedVal := fun _ => none

/-- C6: a provider credential is classified absent/placeholder exactly when
it is null/empty or case-insensitively contains one of the substrings your,
placeholder, change, replace, xxxx, example; and whenever it is so
classified, a validated risk-assess request is answered by the fallback
heuristic tagged model fallback, without the provider outcome being
consulted at all. -/
theorem c6_placeholder_credential (k : Option String) (parse : String → Option ParsedVal)
    (o1 o2 : ProviderOutcome) (pf : Bool) (mem : Memory) (body : Body) :
    (isPlaceholderKey k = true ↔ specPlaceholder k)
    ∧ (isPlaceholderKey k = true → firstMissing body = none →
        riskAssess parse k o1 pf mem body = riskAssess parse k o2 pf mem body
        ∧ (riskAssess parse k o1 pf mem body).1
            = .result 200 (toRObj (fallbackRisk (some body))) "fallback") := by
  constructor
  · cases k with
    | none => simp [isPlaceholderKey, specPlaceholder]
    | some s =>
      by_cases hs : s = ""
      · subst hs
        simp [isPlaceholderKey, specPlaceholder]
      · simp [isPlaceholderKey, specPlaceholder, hs, List.any_eq_true]
  · intro hk hv
    unfold riskAssess
    rw [hv]
    simp only [hk, if_true]
    exact ⟨trivial, rfl⟩

/-- Witness for C6: a mixed-case TEMPLATE-looking key is classified
placeholder, and a validated request with it is answered by the fallback
result no matter what the provider would have said. -/
theorem c6_witness :
    isPlaceholderKey (some "ExAmPlE-key") = true
    ∧ riskAssess parse0 (some "ExAmPlE-key") (.text "garbage") false initialMemory nightBody
        = riskAssess parse0 (some "ExAmPlE-key") (.sdkError "boom") false initialMemory nightBody
    ∧ (riskAssess parse0 (some "ExAmPlE-key") (.text "garbage") false initialMemory nightBody).1
        = .result 200 (toRObj (fallbackRisk (some nightBody))) "fallback" := by
  have h := (c6_placeholder_credential (some "ExAmPlE-key") parse0 (.text "garbage")
    (.sdkError "boom") false initialMemory nightBody).2 (by decide) (by decide)
  exact ⟨by decide, h.1, h.2⟩

/-- C3: when a required field is missing, the handler answers 400 with the
code missing_ followed by the first missing field in the required order;
the validation loop accepts exactly the bodies containing all five keys;
and whenever validation passes the handler always answers a status-200
result, so within the assess pipeline the validation failure is the only
failure a caller can see. -/
theorem c3_missing_field_validation (parse : String → Option ParsedVal)
    (key : Option String) (outcome : ProviderOutcome) (pf : Bool)
    (mem : Memory) (body : Body) (f : String) :
    (firstMissing body = some f →
      riskAssess parse key outcome pf mem body = (.error 400 ("missing_" ++ f), mem))
    ∧ (firstMissing body = none ↔ ∀ g ∈ requiredFields, hasField body g = true)
    ∧ (firstMissing body = none →
        ∃ obj mdl mem2, riskAssess parse key outcome pf mem body
          = (.result 200 obj mdl, mem2)) := by
  refine ⟨?_, ?_, ?_⟩
  · intro h
    unfold riskAssess
    rw [h]
  · simp [firstMissing, List.find?_eq_none]
  · intro hv
    unfold riskAssess
    rw [hv]
    by_cases hk : isPlaceholderKey key = true
    · simp only [hk, if_true]
      exact ⟨_, _, _, rfl⟩
    · simp only [Bool.not_eq_true] at hk
      simp only [hk, Bool.false_eq_true, if_false]
      cases outcome with
      | sdkError m => exact ⟨_, _, _, rfl⟩
      | text t =>
        cases htp : tryParse parse t with
        | none =>
          simp only [htp]
          exact ⟨_, _, _, rfl⟩
        | some p =>
          simp only [htp]
          by_cases hpt : (!p.truthy || p.riskScoreNum.isNone) = true
          · simp only [hpt, if_true]
            exact ⟨_, _, _, rfl⟩
          · simp only [Bool.not_eq_true] at hpt
            simp only [hpt, Bool.false_eq_true, if_false]
            exact ⟨_, _, _, rfl⟩

/-- A body whose timeOfDay key is absent. -/
def bodyNoTime : Body :=
  { scenarioId := some (.str "s1")
    timeOfDay := none
    userAlone := some (.bool true)
    neighborhoodType := some (.str "downtown")
    routeLighting := some (.str "good") }

/-- Witness for C3: a request without timeOfDay is answered 400
missing_timeOfDay, and a complete request is answered with a 200 result. -/
theorem c3_witness :
    riskAssess parse0 none (.text "") false initialMemory bodyNoTime
      = (.error 400 ("missing_" ++ "timeOfDay"), initialMemory)
    ∧ ∃ obj mdl mem2, riskAssess parse0 none (.text "") false initialMemory nightBody
      = (.result 200 obj mdl, mem2) :=
  ⟨(c3_missing_field_validation parse0 none (.text "") false initialMemory bodyNoTime
      "timeOfDay").1 (by decide),
   (c3_missing_field_validation parse0 none (.text "") false initialMemory nightBody
      "timeOfDay").2.2 (by decide)⟩

/-- The all-null body: every required key present, every value null. -/
def allNullBody : Body :=
  { scenarioId := some .null, timeOfDay := some .null, userAlone := some .null
    neighborhoodType := some .null, routeLighting := some .null }

/-- C9: the validation loop tests key presence only, so any five values
whatsoever pass it; in particular the all-null body passes, and with no
provider configured it is answered 200 by the fallback with riskScore 0
and riskLevel LOW, every falsy field contributing zero. -/
theorem c9_presence_only_validation (v1 v2 v3 v4 v5 : JSVal) :
    firstMissing { scenarioId := some v1, timeOfDay := some v2, userAlone := some v3
                   neighborhoodType := some v4, routeLighting := some v5 } = none
    ∧ (riskAssess parse0 none (.text "") false initialMemory allNullBody).1
        = .result 200 (toRObj (fallbackRisk (some allNullBody))) "fallback"
    ∧ (fallbackRisk (some allNullBody)).riskScore = 0
    ∧ (fallbackRisk (some allNullBody)).riskLevel = "LOW" :=
  ⟨rfl, by decide, by decide, by decide⟩

/-- A provider failure as the claim enumerates it: the SDK call threw, or
the text failed both parse attempts, or the parsed value is falsy or its
riskScore does not convert to a finite number. -/
def providerFailure (parse : String → Option ParsedVal) (outcome : ProviderOutcome) : Prop :=
  (∃ m, outcome = .sdkError m)
  ∨ (∃ t, outcome = .text t ∧
      (tryParse parse t = none
       ∨ ∃ p, tryParse parse t = some p ∧ (p.truthy = false ∨ p.riskScoreNum = none)))

/-- C2: a validated risk-assess request is never answered with an error
status on a provider failure: under every enumerated failure mode the
response is the status-200 fallback result tagged model fallback. -/
theorem c2_provider_errors_degrade (parse : String → Option ParsedVal)
    (key : Option String) (outcome : ProviderOutcome) (pf : Bool)
    (mem : Memory) (body : Body)
    (hv : firstMissing body = none)
    (hf : providerFailure parse outcome) :
    (riskAssess parse key outcome pf mem body).1
      = .result 200 (toRObj (fallbackRisk (some body))) "fallback" := by
  unfold riskAssess
  rw [hv]
  by_cases hk : isPlaceholderKey key = true
  · simp only [hk, if_true]
    rfl
  · simp only [Bool.not_eq_true] at hk
    simp only [hk, Bool.false_eq_true, if_false]
    rcases hf with ⟨m, rfl⟩ | ⟨t, rfl, hcase⟩
    · rfl
    · rcases hcase with htp | ⟨p, htp, hbad⟩
      · simp only [htp]
        rfl
      · simp only [htp]
        rcases hbad with h1 | h2
        · simp only [h1, Bool.not_false, Bool.true_or, if_true]
          rfl
        · simp only [h2, Option.isNone_none, Bool.or_true, if_true]
          rfl

/-- Witness for C2: with a configured key and a provider answer that is not
JSON (and contains no brace pair), the request degrades to the fallback
result with status 200. -/
theorem c2_witness :
    firstMissing nightBody = none
    ∧ providerFailure parse0 (.text "not json")
    ∧ (riskAssess parse0 (some "sk-live-abc123") (.text "not json") false initialMemory nightBody).1
        = .result 200 (toRObj (fallbackRisk (some nightBody))) "fallback" :=
  ⟨by decide, Or.inr ⟨"not json", rfl, Or.inl (by decide)⟩,
    c2_provider_errors_degrade parse0 (some "sk-live-abc123") (.text "not json") false
      initialMemory nightBody (by decide) (Or.inr ⟨"not json", rfl, Or.inl (by decide)⟩)⟩

/-- Inversion of sendResult: a 200 result carries exactly the object passed
in, and the memory after the call is the LOW-conditional update. -/
theorem sendResult_spec (body : Body) (mem : Memory) (pf : Bool) (obj : RObj)
    (model : String) (r : RObj) (mdl : String) (mem2 : Memory)
    (h : sendResult body mem pf obj model = (.result 200 r mdl, mem2)) :
    r = obj ∧ mem2 = (if jsStrictEq r.riskLevel (.str "LOW") = true then
        { hasMemory := true
          lastLowScenarioId := jsOr (bodyGet body.scenarioId) .null
          lastSaferAction := jsOr r.saferAction .null }
      else mem) := by
  simp only [sendResult, Prod.mk.injEq, RiskResponse.result.injEq, true_and] at h
  obtain ⟨⟨hobj, hmdl⟩, hmem⟩ := h
  subst hobj
  exact ⟨rfl, hmem.symm⟩

/-- C4 (amended): after any 200 result, the MEMORY record equals the update
exactly when the result riskLevel is the string LOW — hasMemory true, the
submitted scenarioId when truthy else null, the result saferAction when
truthy else null — and is completely unchanged otherwise; memory-echo then
reflects that record; and a failing memory-file persist changes nothing
about the handler output. -/
theorem c4_memory_update (parse : String → Option ParsedVal) (key : Option String)
    (outcome : ProviderOutcome) (pf : Bool) (mem : Memory) (body : Body)
    (r : RObj) (mdl : String) (mem2 : Memory)
    (h : riskAssess parse key outcome pf mem body = (.result 200 r mdl, mem2)) :
    (mem2 = if jsStrictEq r.riskLevel (.str "LOW") = true then
        { hasMemory := true
          lastLowScenarioId := jsOr (bodyGet body.scenarioId) .null
          lastSaferAction := jsOr r.saferAction .null }
      else mem)
    ∧ memoryEchoHandler mem2 = mem2
    ∧ riskAssess parse key outcome true mem body
        = riskAssess parse key outcome false mem body := by
  refine ⟨?_, rfl, rfl⟩
  unfold riskAssess at h
  cases hfm : firstMissing body with
  | some f =>
    rw [hfm] at h
    simp at h
  | none =>
    rw [hfm] at h
    by_cases hk : isPlaceholderKey key = true
    · simp only [hk, if_true] at h
      exact (sendResult_spec _ _ _ _ _ _ _ _ h).2
    · simp only [Bool.not_eq_true] at hk
      simp only [hk, Bool.false_eq_true, if_false] at h
      cases outcome with
      | sdkError m => exact (sendResult_spec _ _ _ _ _ _ _ _ h).2
      | text t =>
        cases htp : tryParse parse t with
        | none =>
          simp only [htp] at h
          exact (sendResult_spec _ _ _ _ _ _ _ _ h).2
        | some p =>
          simp only [htp] at h
          by_cases hpt : (!p.truthy || p.riskScoreNum.isNone) = true
          · simp only [hpt, if_true] at h
            exact (sendResult_spec _ _ _ _ _ _ _ _ h).2
          · simp only [Bool.not_eq_true] at hpt
            simp only [hpt, Bool.false_eq_true, if_false] at h
            exact (sendResult_spec _ _ _ _ _ _ _ _ h).2

/-- A valid body whose scenarioId is the empty string (falsy in JS). -/
def emptyIdBody : Body :=
  { scenarioId := some (.str "")
    timeOfDay := some (.str "day")
    userAlone := some (.bool false)
    neighborhoodType := some (.str "residential")
    routeLighting := some (.str "good") }

/-- Counterexample to C4 as stated: a LOW result whose submitted scenarioId
is the empty string is persisted as null, so the subsequent memory echo does
not return the submitted scenarioId. -/
theorem c4_counterexample :
    riskAssess parse0 none (.text "") false initialMemory emptyIdBody
      = (.result 200 (toRObj (fallbackRisk (some emptyIdBody))) "fallback",
         { hasMemory := true, lastLowScenarioId := .null
           lastSaferAction := .str "Proceed but remain aware of surroundings." })
    ∧ (toRObj (fallbackRisk (some emptyIdBody))).riskLevel = .str "LOW"
    ∧ emptyIdBody.scenarioId = some (.str "")
    ∧ (JSVal.null : JSVal) ≠ .str "" := by
  refine ⟨by decide, by decide, by decide, by decide⟩

/-- The MEMORY value after a LOW result on the all-null body. -/
def lowNullMemory : Memory :=
  { hasMemory := true, lastLowScenarioId := .null
    lastSaferAction := .str "Proceed but remain aware of surroundings." }

/-- Witness for the amended C4: a LOW fallback result on the all-null body
updates MEMORY per the conditional, and a HIGH result leaves it
untouched. -/
theorem c4_witness :
    riskAssess parse0 none (.text "") false initialMemory allNullBody
      = (.result 200 (toRObj (fallbackRisk (some allNullBody))) "fallback", lowNullMemory)
    ∧ (lowNullMemory =
        if jsStrictEq (toRObj (fallbackRisk (some allNullBody))).riskLevel (.str "LOW") = true then
          { hasMemory := true
            lastLowScenarioId := jsOr (bodyGet allNullBody.scenarioId) .null
            lastSaferAction := jsOr (toRObj (fallbackRisk (some allNullBody))).saferAction .null }
        else initialMemory)
    ∧ riskAssess parse0 none (.text "") true initialMemory allNullBody
        = riskAssess parse0 none (.text "") false initialMemory allNullBody
    ∧ riskAssess parse0 none (.text "") false initialMemory nightBody
        = (.result 200 (toRObj (fallbackRisk (some nightBody))) "fallback", initialMemory) := by
  have hh : riskAssess parse0 none (.text "") false initialMemory allNullBody
      = (.result 200 (toRObj (fallbackRisk (some allNullBody))) "fallback", lowNullMemory) := by
    decide
  have h := c4_memory_update parse0 none (.text "") false initialMemory allNullBody
    (toRObj (fallbackRisk (some allNullBody))) "fallback" lowNullMemory hh
  exact ⟨hh, h.1, h.2.2, by decide⟩

/-- C7: when the provider text parses to a truthy object whose riskScore
converts to a finite number, the response passes the provider riskLevel,
reasoning, guardianMessage and saferAction through exactly as supplied
(riskLevel is not recomputed from the score), with riskScore replaced by the
max-min clamp of the converted number — a value always inside 0..100 — and
the result is tagged with the provider model name gemini. -/
theorem c7_provider_passthrough (parse : String → Option ParsedVal)
    (key : Option String) (pf : Bool) (mem : Memory) (body : Body)
    (t : String) (p : ParsedVal) (q : ℚ)
    (hv : firstMissing body = none)
    (hk : isPlaceholderKey key = false)
    (hp : tryParse parse t = some p)
    (ht : p.truthy = true)
    (hq : p.riskScoreNum = some q) :
    (riskAssess parse key (.text t) pf mem body).1
      = .result 200
          { riskScore := jsClamp q
            riskLevel := p.riskLevel
            reasoning := p.reasoning
            guardianMessage := p.guardianMessage
            saferAction := p.saferAction } "gemini"
    ∧ 0 ≤ jsClamp q ∧ jsClamp q ≤ 100 := by
  refine ⟨?_, le_max_left _ _, max_le (by norm_num) (min_le_left _ _)⟩
  unfold riskAssess
  rw [hv]
  simp only [hk, Bool.false_eq_true, if_false, hp, ht, hq, Bool.not_true,
    Option.isNone_some, Bool.or_self, Bool.false_eq_true, if_false]
  rfl

/-- The parsed provider object used by the C7 witness: it reports riskLevel
LOW yet a score of 95, showing the level is passed through untouched. -/
def parsedW : ParsedVal :=
  { truthy := true, riskScoreNum := some 95, riskLevel := .str "LOW"
    reasoning := .str "provider reasoning", guardianMessage := .str "stay aware"
    saferAction := .str "keep to main streets" }

/-- A JSON.parse model that succeeds on the one text the witness sends. -/
def parseW : String → Option ParsedVal :=
  fun s => if s = "resp" then some parsedW else none

/-- Witness for C7: a parsed provider answer with riskLevel LOW and score 95
is returned with the clamped score 95 and the LOW level untouched, tagged
gemini. -/
theorem c7_witness :
    firstMissing nightBody = none
    ∧ isPlaceholderKey (some "sk-live-abc123") = false
    ∧ tryParse parseW "resp" = some parsedW
    ∧ parsedW.truthy = true
    ∧ parsedW.riskScoreNum = some 95
    ∧ (riskAssess parseW (some "sk-live-abc123") (.text "resp") false initialMemory nightBody).1
        = .result 200
            { riskScore := jsClamp 95
              riskLevel := .str "LOW"
              reasoning := .str "provider reasoning"
              guardianMessage := .str "stay aware"
              saferAction := .str "keep to main streets" } "gemini"
    ∧ jsClamp 95 = 95 := by
  have h := c7_provider_passthrough parseW (some "sk-live-abc123") false initialMemory
    nightBody "resp" parsedW 95 (by decide) (by decide) rfl rfl rfl
  exact ⟨by decide, by decide, rfl, rfl, rfl, h.1, by decide⟩

/-- The uniform fallback JSON body of the TTS handler for a given text. -/
def ttsFallback (s : String) : TtsFallbackBody :=
  { ok := false, fallback := true, provider := "browser_tts"
    text := s, reason := "elevenlabs_unavailable" }

/-- C8: the TTS handler answers 400 missing_text when the text field is not
a string, 400 text_too_long exactly when the string is longer than 400
characters, 500 elevenlabs_not_configured when either speech credential is a
placeholder, streams the audio on provider success, and on any provider
failure — non-success HTTP response or thrown network error — answers
status 200 with the fixed browser_tts fallback JSON, identical whatever the
provider error body said, so that body is never surfaced. -/
theorem c8_tts_contract (classify : String → Bool) (apiKey voiceId : Option String)
    (v : JSVal) (s : String) (outcome : FetchOutcome) (bt1 bt2 m : String) :
    ((∀ x, v ≠ .str x) → ttsHandler classify apiKey voiceId v outcome = .error 400 "missing_text")
    ∧ (s.length > 400 →
        ttsHandler classify apiKey voiceId (.str s) outcome = .error 400 "text_too_long")
    ∧ (s.length ≤ 400 → (isPlaceholder apiKey = true ∨ isPlaceholder voiceId = true) →
        ttsHandler classify apiKey voiceId (.str s) outcome
          = .error 500 "elevenlabs_not_configured")
    ∧ (s.length ≤ 400 → isPlaceholder apiKey = false → isPlaceholder voiceId = false →
        (∀ audio, ttsHandler classify apiKey voiceId (.str s) (.success audio) = .audio audio)
        ∧ ttsHandler classify apiKey voiceId (.str s) (.httpError bt1)
            = .json200 (ttsFallback s)
        ∧ ttsHandler classify apiKey voiceId (.str s) (.httpError bt1)
            = ttsHandler classify apiKey voiceId (.str s) (.httpError bt2)
        ∧ ttsHandler classify apiKey voiceId (.str s) (.netError m)
            = .json200 (ttsFallback s)) := by
  refine ⟨?_, ?_, ?_, ?_⟩
  · intro h
    cases v with
    | str x => exact absurd rfl (h x)
    | null => rfl
    | undefined => rfl
    | bool b => rfl
    | num q => rfl
  · intro h
    simp only [ttsHandler]
    rw [if_pos h]
  · intro hlen hpl
    simp only [ttsHandler]
    rw [if_neg (not_lt.mpr hlen)]
    rcases hpl with h | h
    · rw [if_pos (by rw [h]; rfl)]
    · rw [if_pos (by rw [h]; simp)]
  · intro hlen hka hkv
    have hcfg : (isPlaceholder apiKey || isPlaceholder voiceId) = false := by
      rw [hka, hkv]; rfl
    have hfb : ∀ bt, ttsHandler classify apiKey voiceId (.str s) (.httpError bt)
        = .json200 (ttsFallback s) := by
      intro bt
      simp only [ttsHandler]
      rw [if_neg (not_lt.mpr hlen), if_neg (by rw [hcfg]; simp)]
      by_cases hc : classify bt = true
      · rw [if_pos hc]
        rfl
      · rw [if_neg (by simpa using hc)]
        rfl
    refine ⟨?_, hfb bt1, (hfb bt1).trans (hfb bt2).symm, ?_⟩
    · intro audio
      simp only [ttsHandler]
      rw [if_neg (not_lt.mpr hlen), if_neg (by rw [hcfg]; simp)]
    · simp only [ttsHandler]
      rw [if_neg (not_lt.mpr hlen), if_neg (by rw [hcfg]; simp)]
      rfl

/-- A classifier for the C8 witness: the provider error body never parses to
a payment object. -/
def classify0 : String → Bool := fun _ => false

/-- A 401-character text. -/
def text401 : String := String.mk (List.replicate 401 'a')

/-- A 400-character text. -/
def text400 : String := String.mk (List.replicate 400 'a')

set_option maxRecDepth 8000 in
/-- Witness for C8: the 401-character text is rejected text_too_long, the
400-character one is accepted and streams audio, a your-style key yields the
500 configuration error, a null text yields missing_text, and provider
failures with two different error bodies yield the same fixed fallback
JSON. -/
theorem c8_witness :
    ttsHandler classify0 (some "sk-live-abc123") (some "voice77") (.str text401)
        (.success [1, 2, 3]) = .error 400 "text_too_long"
    ∧ ttsHandler classify0 (some "sk-live-abc123") (some "voice77") (.str text400)
        (.success [1, 2, 3]) = .audio [1, 2, 3]
    ∧ ttsHandler classify0 (some "your-api-key-here") (some "voice77") (.str "hello")
        (.success [1, 2, 3]) = .error 500 "elevenlabs_not_configured"
    ∧ ttsHandler classify0 (some "sk-live-abc123") (some "voice77") .null
        (.success [1, 2, 3]) = .error 400 "missing_text"
    ∧ ttsHandler classify0 (some "sk-live-abc123") (some "voice77") (.str "hello")
        (.httpError "quota exceeded: secret details") = .json200 (ttsFallback "hello")
    ∧ ttsHandler classify0 (some "sk-live-abc123") (some "voice77") (.str "hello")
        (.httpError "quota exceeded: secret details")
      = ttsHandler classify0 (some "sk-live-abc123") (some "voice77") (.str "hello")
        (.httpError "")
    ∧ ttsHandler classify0 (some "sk-live-abc123") (some "voice77") (.str "hello")
        (.netError "ECONNRESET") = .json200 (ttsFallback "hello") := by
  have h1 := (c8_tts_contract classify0 (some "sk-live-abc123") (some "voice77")
    .null text401 (.success [1, 2, 3]) "quota exceeded: secret details" "" "ECONNRESET").2.1
    (by decide)
  have h2 := (c8_tts_contract classify0 (some "sk-live-abc123") (some "voice77")
    .null text400 (.success [1, 2, 3]) "quota exceeded: secret details" "" "ECONNRESET").2.2.2
    (by decide) (by decide) (by decide)
  have h3 := (c8_tts_contract classify0 (some "your-api-key-here") (some "voice77")
    .null "hello" (.success [1, 2, 3]) "x" "y" "z").2.2.1
    (by decide) (Or.inl (by decide))
  have h4 := (c8_tts_contract classify0 (some "sk-live-abc123") (some "voice77")
    .null "hello" (.success [1, 2, 3]) "x" "y" "z").1
    (by intro x; exact fun hx => JSVal.noConfusion hx)
  have h5 := (c8_tts_contract classify0 (some "sk-live-abc123") (some "voice77")
    .null "hello" (.success [1, 2, 3]) "quota exceeded: secret details" "" "ECONNRESET").2.2.2
    (by decide) (by decide) (by decide)
  exact ⟨h1, h2.1 [1, 2, 3], h3, h4, h5.2.1, h5.2.2.1, h5.2.2.2⟩

end SafeCircle
